import Mathlib

/-!
Verification development for the `tmdbone` asynchronous TMDb API client.

The Python sources are embedded shallowly:

* `src/tmdbone/client.py` — `TMDbOneClient._sanitize_params`, the
  `_api_request` retry/rotation loop, and client construction;
* `src/tmdbone/resources.py` — `_Resource` URL templating, the `append`
  shortcut merging in `_Resource._get`, and the per-class path segments;
* `src/tmdbone/utils.py` — not needed by the claims under scrutiny.

Python dictionaries are modelled as association lists in insertion order,
Python scalar values by the inductive `PyVal`, machine-level floats from the
`Retry-After` header by `ℚ` behind an abstract parse function, and the
remote server by a function from the attempt counter to the attempt's result.
-/

set_option maxHeartbeats 1000000

/-- Python values as they occur in request parameter dictionaries and in
parsed JSON response bodies: `None`, `bool`, `int`, `str`, `list`, `tuple`
and `dict`. -/
inductive PyVal where
  | none
  | bool (b : Bool)
  | int (n : Int)
  | str (s : String)
  | list (xs : List PyVal)
  | tuple (xs : List PyVal)
  | dict (fields : List (String × PyVal))


mutual

/-- Python `repr` of a value, as far as the embedded code can observe it
(string escaping inside `repr` of a `str` is not modelled; no claim
inspects it). -/
def pyRepr : PyVal → String
  | .none => "None"
  | .bool true => "True"
  | .bool false => "False"
  | .int n => toString n
  | .str s => "'" ++ s ++ "'"
  | .list xs => "[" ++ pyReprItems xs ++ "]"
  | .tuple [] => "()"
  | .tuple [x] => "(" ++ pyRepr x ++ ",)"
  | .tuple xs => "(" ++ pyReprItems xs ++ ")"
  | .dict fs => "\x7b" ++ pyReprFields fs ++ "\x7d"

/-- Comma-separated `repr`s of the elements of a list. -/
def pyReprItems : List PyVal → String
  | [] => ""
  | [x] => pyRepr x
  | x :: xs => pyRepr x ++ ", " ++ pyReprItems xs

/-- Comma-separated `repr`s of the entries of a dict. -/
def pyReprFields : List (String × PyVal) → String
  | [] => ""
  | [(k, v)] => "'" ++ k ++ "': " ++ pyRepr v
  | (k, v) :: fs => "'" ++ k ++ "': " ++ pyRepr v ++ ", " ++ pyReprFields fs

end

/-- Python `str()` of a value: identity on strings, `repr`-like rendering
elsewhere (`str(True) = "True"`, `str(None) = "None"`, containers render as
their `repr`). -/
def pyStr : PyVal → String
  | .str s => s
  | v => pyRepr v

/-- Python truthiness (`bool(v)`). -/
def pyTruthy : PyVal → Bool
  | .none => false
  | .bool b => b
  | .int n => n != 0
  | .str s => s != ""
  | .list xs => !xs.isEmpty
  | .tuple xs => !xs.isEmpty
  | .dict fs => !fs.isEmpty

/-- Whether a value is Python's `None` (the `x is None` test). -/
def PyVal.isNone : PyVal → Bool
  | .none => true
  | _ => false

/-- Python `s.lower()`: lower-case every character. -/
def strLower (s : String) : String := ⟨s.data.map Char.toLower⟩

/-- Python `sep.join(items)` on a list of strings. -/
def strJoin (sep : String) : List String → String
  | [] => ""
  | [x] => x
  | x :: xs => x ++ sep ++ strJoin sep xs

/-- Python `k in d` on a dict modelled as an association list. -/
def dictContains (d : List (String × PyVal)) (k : String) : Bool :=
  d.any (fun p => p.1 == k)

/-- Python `d.get(k)` / `d[k]` lookup (first matching key). -/
def dictFind (d : List (String × PyVal)) (k : String) : Option PyVal :=
  (d.find? (fun p => p.1 == k)).map Prod.snd

/-- Removal part of Python `d.pop(k)`. -/
def dictErase (d : List (String × PyVal)) (k : String) : List (String × PyVal) :=
  d.eraseP (fun p => p.1 == k)

/-- Python `d[k] = v`: overwrite in place when the key is present, append
at the end otherwise. -/
def dictSet (d : List (String × PyVal)) (k : String) (v : PyVal) : List (String × PyVal) :=
  if dictContains d k then d.map (fun p => if p.1 == k then (p.1, v) else p) else d ++ [(k, v)]

/-- The list/tuple arm of `_sanitize_params`:
`items = [str(x) for x in v if x is not None]`, and the comma-joined string
when `items` is non-empty. -/
def sanitizeSeqValue (xs : List PyVal) : Option PyVal :=
  let items := (xs.filter (fun x => !x.isNone)).map pyStr
  if items.isEmpty then Option.none else some (.str (strJoin "," items))

/-- One iteration of the loop body of `TMDbOneClient._sanitize_params`
(`src/tmdbone/client.py`): `None` values are skipped, bools become
`str(v).lower()`, lists and tuples become comma-joined strings of their
non-`None` elements (skipped when empty), everything else is stored as is. -/
def sanitizeStep (clean : List (String × PyVal)) (kv : String × PyVal) : List (String × PyVal) :=
  match kv.2 with
  | .none => clean
  | .bool b => dictSet clean kv.1 (.str (strLower (pyStr (.bool b))))
  | .list xs =>
    match sanitizeSeqValue xs with
    | some v => dictSet clean kv.1 v
    | Option.none => clean
  | .tuple xs =>
    match sanitizeSeqValue xs with
    | some v => dictSet clean kv.1 v
    | Option.none => clean
  | v => dictSet clean kv.1 v

/-- Embedding of `TMDbOneClient._sanitize_params` (`src/tmdbone/client.py`):
a left fold of `sanitizeStep` over the entries of the input dict, starting
from the empty dict `clean`. -/
def sanitize_params (params : List (String × PyVal)) : List (String × PyVal) :=
  params.foldl sanitizeStep []

example : sanitize_params [("a", .none), ("b", .bool true), ("c", .list [.int 1, .none, .str "x"]), ("d", .list [.none]), ("e", .int 7)] =
    [("b", .str "true"), ("c", .str "1,x"), ("e", .int 7)] := rfl

/-- Client configuration taken by `TMDbOneClient.__init__`
(`src/tmdbone/client.py`): the retry budget for network errors, the base
backoff delay, and the default rate-limit cooldown. -/
structure Config where
  retries : Nat
  retryDelay : Nat
  defaultCooldown : Nat

/-- An HTTP response as `_api_request` observes it: the status code, the
parsed JSON body (`Option.none` when `response.json()` raises), the text body
(`Option.none` when `response.text()` raises a client error), the
`Retry-After` header, and the HTTP reason phrase. -/
structure HttpResponse where
  status : Nat
  jsonBody : Option PyVal
  textBody : Option String
  retryAfter : Option String
  reason : String

/-- What one issued request produces: a response from the server, or an
`aiohttp.ClientError` / `asyncio.TimeoutError` (identified by a message). -/
inductive AttemptResult where
  | resp (r : HttpResponse)
  | netErr (e : String)

/-- Models the `TMDbAPIError` exception raised by `client.py`. The class
itself lives in `tmdbone/exceptions.py`, which is referenced by the sources
but is a plain data-carrying exception: it records the message and the
`status_code`, `url` and `response_body` keyword arguments (all defaulting
to `None`), and `cause` models the `raise ... from e` chaining. -/
structure TMDbAPIError where
  message : String
  statusCode : Option Nat
  url : Option String
  responseBody : Option (PyVal ⊕ String)
  cause : Option String

/-- The observable result of `_api_request`: the parsed JSON of a 200
response, Python `None` for a 404, or a raised `TMDbAPIError`. -/
inductive Outcome where
  | success (body : PyVal)
  | notFound
  | error (e : TMDbAPIError)

/-- Observable side effects of the request loop, in order: a request issued
with a given API key, an `asyncio.sleep` of a given duration in seconds, and
the removal of a key from `active_api_keys`. -/
inductive Event where
  | attempt (key : String)
  | sleep (seconds : ℚ)
  | removeKey (key : String)

/-- How one loop iteration of `_api_request` proceeds after receiving the
attempt's result: terminate with an outcome, continue after a 401 key
removal, continue after a 429 sleep of the given duration, or fall into the
`except (aiohttp.ClientError, asyncio.TimeoutError)` handler with the given
exception. -/
inductive AttemptStep where
  | done (o : Outcome)
  | invalidKey
  | rateLimited (d : ℚ)
  | netCaught (e : String)

/-- Message of the exhausted-keys error raised at the top of the loop. -/
def allKeysMsg : String := "All API keys have been invalidated or exhausted."

/-- Message of the error raised on the sixth 429 of one request. -/
def rateLimitMsg : String := "Max rate limit retries exceeded."

/-- Message of the error raised when a 200 body is not JSON. -/
def nonJsonMsg : String := "API returned non-JSON response."

/-- Message of the post-loop error raised when network retries ran out
(`f"Request failed after {network_attempts} retries."`). -/
def netFailMsg (n : Nat) : String := "Request failed after " ++ toString n ++ " retries."

/-- Message of the post-loop error raised when the loop exits with no
recorded exception. -/
def unexpectedMsg : String := "Request failed unexpectedly."

/-- Stands for the `aiohttp.ClientError` raised by `response.text()` when
the body of a 200 response can be parsed neither as JSON nor as text. -/
def payloadErrStr : String := "ClientPayloadError"

/-- Rendering of the `aiohttp.ClientResponseError` that `_api_request`
raises for a 5xx status (it is caught again by the network-error handler,
so only its identity as an exception matters). -/
def clientRespErrStr (status : Nat) (msg : String) : String :=
  "ClientResponseError(" ++ toString status ++ ", " ++ msg ++ ")"

/-- Sleep duration chosen in the 429 branch of `_api_request`: start from
`default_cooldown`; if the `Retry-After` header is truthy, try
`float(retry_after)` and keep the cooldown when that raises `ValueError`.
The abstract `pf` stands for Python's `float()` parser. -/
def rateLimitDelay (pf : String → Option ℚ) (cfg : Config) (r : HttpResponse) : ℚ :=
  match r.retryAfter with
  | some ra =>
    if ra == "" then (cfg.defaultCooldown : ℚ)
    else
      match pf ra with
      | some f => f
      | Option.none => (cfg.defaultCooldown : ℚ)
  | Option.none => (cfg.defaultCooldown : ℚ)

/-- The body/message extraction of the generic-status branch of
`_api_request`: `response.json().get('status_message', 'Unknown Error')`
when the body parses to a dict, otherwise (including when `.get` raises on
a non-dict JSON value) the text body and the HTTP reason, with a fixed
fallback when the text cannot be read either. -/
def bodyAndMsg (r : HttpResponse) : (PyVal ⊕ String) × String :=
  match r.jsonBody with
  | some (PyVal.dict fs) =>
      (Sum.inl (PyVal.dict fs),
       pyStr (((fs.find? (fun p => p.1 == "status_message")).map Prod.snd).getD (PyVal.str "Unknown Error")))
  | _ =>
      match r.textBody with
      | some t => (Sum.inr t, r.reason)
      | Option.none => (Sum.inr "Could not read response body", r.reason)

/-- The status dispatch of `_api_request` on a received response
(`src/tmdbone/client.py`): 200 returns the parsed JSON or raises the
non-JSON error, 404 returns `None`, 401 discards the key and continues,
429 raises after `max_rate_limit_retries = 5` sleeps and otherwise sleeps
and continues, 5xx raises `aiohttp.ClientResponseError` (caught by the
network handler), and anything else raises a `TMDbAPIError`. -/
def handleResponse (pf : String → Option ℚ) (cfg : Config) (url : String)
    (rlAttempts : Nat) (r : HttpResponse) : AttemptStep :=
  if r.status = 200 then
    match r.jsonBody with
    | some j => .done (.success j)
    | Option.none =>
      match r.textBody with
      | some t => .done (.error ⟨nonJsonMsg, some 200, some url, some (Sum.inr t), Option.none⟩)
      | Option.none => .netCaught payloadErrStr
  else if r.status = 404 then
    .done .notFound
  else if r.status = 401 then
    .invalidKey
  else if r.status = 429 then
    if 5 ≤ rlAttempts then
      .done (.error ⟨rateLimitMsg, some 429, some url, Option.none, Option.none⟩)
    else
      .rateLimited (rateLimitDelay pf cfg r)
  else
    let bm := bodyAndMsg r
    if 500 ≤ r.status ∧ r.status < 600 then
      .netCaught (clientRespErrStr r.status bm.2)
    else
      .done (.error ⟨"API Error: " ++ bm.2, some r.status, some url, some bm.1, Option.none⟩)

/-- Lifts `handleResponse` to an attempt result: a network exception from
`session.request` goes straight to the `except` handler. -/
def handleAttempt (pf : String → Option ℚ) (cfg : Config) (url : String)
    (rlAttempts : Nat) : AttemptResult → AttemptStep
  | .resp r => handleResponse pf cfg url rlAttempts r
  | .netErr e => .netCaught e

/-- The key produced by the `i`-th `next()` call on
`cycle(list(active_api_keys))` counted from the cycle's construction, for a
fixed enumeration `keys` of the active keys. -/
def rotKey (keys : List String) (i : Nat) : String :=
  keys.getD (i % keys.length) ""

/-- The mutable state of one `_api_request` execution: the active keys in
rotation order, the position of the key rotator within its cycle, the
`network_attempts` and `rate_limit_attempts` counters, `last_exception`,
and the count of requests issued so far (which indexes the server
behavior). -/
structure LoopState where
  keys : List String
  rotIdx : Nat
  netAttempts : Nat
  rlAttempts : Nat
  lastExc : Option String
  tick : Nat

/-- The code after the `while` loop of `_api_request`: raise the chained
`TMDbAPIError` when a network exception was recorded, a generic one
otherwise. -/
def loopBreakOutcome (url : String) (s : LoopState) : Outcome :=
  match s.lastExc with
  | some e => .error ⟨netFailMsg s.netAttempts, Option.none, some url, Option.none, some e⟩
  | Option.none => .error ⟨unexpectedMsg, Option.none, some url, Option.none, Option.none⟩

/-- Embedding of the `while True` loop of `_api_request`
(`src/tmdbone/client.py`), with an explicit fuel so the function is
structurally recursive; `Option.none` means the fuel ran out before the
loop did. Each iteration checks for exhausted keys, checks the
network-attempt budget, draws the next key from the rotator, issues the
request (recorded as an `Event.attempt`), and dispatches on the result:

* `done o` — the loop returns or raises `o`;
* `invalidKey` — the key is discarded and, when keys remain, the rotator is
  rebuilt from the start of the remaining list;
* `rateLimited d` — sleep `d` seconds, bump `rate_limit_attempts`, retry;
* `netCaught e` — bump `network_attempts`; while within the budget, sleep
  `retry_delay * network_attempts` and retry, otherwise break out of the
  loop with `last_exception = e` recorded. -/
def runLoop (pf : String → Option ℚ) (cfg : Config) (behavior : Nat → AttemptResult)
    (url : String) : Nat → LoopState → Option (Outcome × List Event)
  | 0, _ => Option.none
  | fuel + 1, s =>
    if s.keys.isEmpty then
      some (.error ⟨allKeysMsg, Option.none, Option.none, Option.none, Option.none⟩, [])
    else if cfg.retries < s.netAttempts then
      some (loopBreakOutcome url s, [])
    else
      let k := rotKey s.keys s.rotIdx
      match handleAttempt pf cfg url s.rlAttempts (behavior s.tick) with
      | .done o => some (o, [.attempt k])
      | .invalidKey =>
        let keys' := s.keys.erase k
        (runLoop pf cfg behavior url fuel
            ⟨keys', if keys'.isEmpty then s.rotIdx + 1 else 0,
             s.netAttempts, s.rlAttempts, s.lastExc, s.tick + 1⟩).map
          (fun p => (p.1, .attempt k :: .removeKey k :: p.2))
      | .rateLimited d =>
        (runLoop pf cfg behavior url fuel
            ⟨s.keys, s.rotIdx + 1, s.netAttempts, s.rlAttempts + 1, s.lastExc, s.tick + 1⟩).map
          (fun p => (p.1, .attempt k :: .sleep d :: p.2))
      | .netCaught e =>
        if s.netAttempts + 1 ≤ cfg.retries then
          (runLoop pf cfg behavior url fuel
              ⟨s.keys, s.rotIdx + 1, s.netAttempts + 1, s.rlAttempts, some e, s.tick + 1⟩).map
            (fun p => (p.1, .attempt k :: .sleep ((cfg.retryDelay * (s.netAttempts + 1) : ℕ) : ℚ) :: p.2))
        else
          some (.error ⟨netFailMsg (s.netAttempts + 1), Option.none, some url, Option.none, some e⟩,
                [.attempt k])

/-- A fuel amount sufficient for `runLoop` to finish from a given state:
every iteration that continues shrinks the key list or bumps one of the two
bounded counters. -/
def loopFuel (cfg : Config) (s : LoopState) : Nat :=
  s.keys.length + (cfg.retries + 1 - s.netAttempts) + (6 - s.rlAttempts) + 1

/-- The loop state at the start of one `_api_request` call: fresh counters,
the client's current active keys and rotator position. -/
def initState (keys : List String) (rotIdx : Nat) : LoopState :=
  ⟨keys, rotIdx, 0, 0, Option.none, 0⟩

/-- The key-related state established by `TMDbOneClient.__init__`
(`src/tmdbone/client.py`): `active_api_keys = set(api_keys)` collapses
duplicates, and `cycle(list(...))` starts a fresh rotation over them. -/
structure ClientState where
  activeKeys : List String
  rotIdx : Nat

/-- Embedding of `TMDbOneClient.__init__`'s key handling: an empty key list
raises `ValueError` (`Option.none`); otherwise the deduplicated keys are
kept with the rotator at its start. -/
def clientInit (apiKeys : List String) : Option ClientState :=
  if apiKeys.isEmpty then Option.none else some ⟨apiKeys.dedup, 0⟩

/-- Python `params.setdefault(k, v)`. -/
def setdefault (params : List (String × PyVal)) (k : String) (v : PyVal) : List (String × PyVal) :=
  if dictContains params k then params else params ++ [(k, v)]

/-- The parameter defaulting done once at the start of `_api_request`:
`language` and `region` are set when configured (truthy) and absent. -/
def withClientDefaults (language region : Option String)
    (params : List (String × PyVal)) : List (String × PyVal) :=
  let p1 := match language with
    | some l => if l == "" then params else setdefault params "language" (.str l)
    | Option.none => params
  match region with
  | some r => if r == "" then p1 else setdefault p1 "region" (.str r)
  | Option.none => p1

/-- The query parameters attached to one issued attempt: the defaulted
parameters are sanitized and the attempt's API key is inserted under
`api_key`. -/
def attemptRequestParams (language region : Option String)
    (params : List (String × PyVal)) (key : String) : List (String × PyVal) :=
  dictSet (sanitize_params (withClientDefaults language region params)) "api_key" (.str key)

/-- `TMDbOneClient.BASE_URL` (`src/tmdbone/client.py`). -/
def BASE_URL : String := "https://api.themoviedb.org/3"

/-- `_Resource.__init__` (`src/tmdbone/resources.py`):
`self._path = "/" + "/".join(map(str, path_segments))`. -/
def resourcePath (segments : List PyVal) : String :=
  "/" ++ strJoin "/" (segments.map pyStr)

/-- The URL built by `_Resource._get`:
`f"{self._client.BASE_URL}{self._path}{path_suffix}"`. -/
def resourceUrl (path pathSuffix : String) : String :=
  BASE_URL ++ path ++ pathSuffix

/-- Normalization of a value to a Python list in `_Resource._get`:
`x if isinstance(x, list) else ([x] if x else [])`. -/
def toPyList (v : PyVal) : List PyVal :=
  match v with
  | .list xs => xs
  | v => if pyTruthy v then [v] else []

/-- The `append` shortcut handling at the top of `_Resource._get`
(`src/tmdbone/resources.py`): when the kwargs contain `append`, it is
popped and merged into `append_to_response` (both sides normalized to
lists when an `append_to_response` already exists). -/
def mergeAppend (kwargs : List (String × PyVal)) : List (String × PyVal) :=
  match dictFind kwargs "append" with
  | Option.none => kwargs
  | some val =>
    let kwargs1 := dictErase kwargs "append"
    match dictFind kwargs1 "append_to_response" with
    | some existing =>
        dictSet kwargs1 "append_to_response" (.list (toPyList existing ++ toPyList val))
    | Option.none => dictSet kwargs1 "append_to_response" val

/-- The request that `_Resource._get` hands to `TMDbOneClient._api_request`:
the templated URL and the (append-merged) keyword arguments. -/
def resourceRequest (path pathSuffix : String)
    (kwargs : List (String × PyVal)) : String × List (String × PyVal) :=
  (resourceUrl path pathSuffix, mergeAppend kwargs)

/-- Path of `Movie(client, movie_id)`: segments `["movie", movie_id]`. -/
def moviePath (movie_id : Int) : String := resourcePath [.str "movie", .int movie_id]

/-- Path of `TV(client, tv_id)`: segments `["tv", tv_id]`. -/
def tvPath (tv_id : Int) : String := resourcePath [.str "tv", .int tv_id]

/-- Path of `Season(client, tv_id, season_number)`. -/
def seasonPath (tv_id season_number : Int) : String :=
  resourcePath [.str "tv", .int tv_id, .str "season", .int season_number]

/-- Path of `Episode(client, tv_id, season_number, episode_number)`. -/
def episodePath (tv_id season_number episode_number : Int) : String :=
  resourcePath [.str "tv", .int tv_id, .str "season", .int season_number,
                .str "episode", .int episode_number]

/-- Path of `Person(client, person_id)`. -/
def personPath (person_id : Int) : String := resourcePath [.str "person", .int person_id]

/-- Path of `Find(client, external_id)`. -/
def findPath (external_id : String) : String := resourcePath [.str "find", .str external_id]

/-- Path of `Search(client)`. -/
def searchPath : String := resourcePath [.str "search"]

/-- Path of `Trending(client)`. -/
def trendingPath : String := resourcePath [.str "trending"]

/-- `Find.by` (`src/tmdbone/resources.py`): sets
`kwargs['external_source'] = source` and calls `_get(**kwargs)` (empty
suffix), so this is the request it issues. -/
def findByRequest (external_id source : String)
    (kwargs : List (String × PyVal)) : String × List (String × PyVal) :=
  resourceRequest (findPath external_id) "" (dictSet kwargs "external_source" (.str source))

/-- `Search.movie` (`src/tmdbone/resources.py`): sets
`kwargs['query'] = query` and calls `_get("/movie", **kwargs)`. -/
def searchMovieRequest (query : String)
    (kwargs : List (String × PyVal)) : String × List (String × PyVal) :=
  resourceRequest searchPath "/movie" (dictSet kwargs "query" (.str query))

/-- `Trending.all` (`src/tmdbone/resources.py`):
calls `_get(f"/all/{time_window}")` with no kwargs. -/
def trendingAllRequest (time_window : String) : String × List (String × PyVal) :=
  resourceRequest trendingPath ("/all/" ++ time_window) []

/-- A full resource-method call: `_Resource._get` builds the URL and merged
parameters and awaits `client._api_request`, whose loop runs from a fresh
per-request state. -/
def resourceGetRun (pf : String → Option ℚ) (cfg : Config) (behavior : Nat → AttemptResult)
    (fuel : Nat) (keys : List String) (rotIdx : Nat) (path pathSuffix : String)
    (kwargs : List (String × PyVal)) : Option (Outcome × List Event) :=
  runLoop pf cfg behavior (resourceRequest path pathSuffix kwargs).1 fuel (initState keys rotIdx)

/-- The event trace of the all-requests-return-401 scenario: each remaining
key is tried once and removed, the rotator restarting from the front of the
remaining keys after each removal; the fuel argument is the length of the
key list. -/
def keys401Events : Nat → List String → Nat → List Event
  | 0, _, _ => []
  | n + 1, keys, rotIdx =>
    if keys.isEmpty then []
    else
      let k := rotKey keys rotIdx
      Event.attempt k :: Event.removeKey k :: keys401Events n (keys.erase k) 0

example : keys401Events 2 ["a", "b"] 0 =
    [.attempt "a", .removeKey "a", .attempt "b", .removeKey "b"] := rfl

example : runLoop (fun _ => Option.none) ⟨3, 5, 10⟩ (fun _ => .netErr "boom") "u" 10
      (initState ["k"] 0) =
    some (.error ⟨netFailMsg 4, Option.none, some "u", Option.none, some "boom"⟩,
      [.attempt "k", .sleep 5, .attempt "k", .sleep 10, .attempt "k", .sleep 15, .attempt "k"]) := by
  rfl

/-- Spec-side description (from claim C7) of what `_sanitize_params` does to
one value: `None` is dropped, a bool becomes the string `"true"`/`"false"`,
a list or tuple becomes the comma-joined string of the `str()` of its
non-`None` elements (dropped entirely when no such element remains), and
any other value is kept unchanged. -/
def sanitizeValueSpec : PyVal → Option PyVal
  | .none => Option.none
  | .bool b => some (.str (if b then "true" else "false"))
  | .list xs =>
    let items := (xs.filter (fun x => !x.isNone)).map pyStr
    if items.isEmpty then Option.none else some (.str (strJoin "," items))
  | .tuple xs =>
    let items := (xs.filter (fun x => !x.isNone)).map pyStr
    if items.isEmpty then Option.none else some (.str (strJoin "," items))
  | v => some v

/-- Spec-side per-entry transform for C7: the value transform under the
entry's unchanged key. -/
def sanitizeEntrySpec (kv : String × PyVal) : Option (String × PyVal) :=
  (sanitizeValueSpec kv.2).map (fun w => (kv.1, w))

lemma isEmpty_false_of_ne_nil {α : Type} {l : List α} (h : l ≠ []) : l.isEmpty = false := by
  cases l with
  | nil => exact absurd rfl h
  | cons a t => rfl

/-- C5: a 200 response with a parsable JSON body makes `_api_request` return
that parsed value unchanged after a single attempt; a 200 response whose
body is not JSON makes it raise a `TMDbAPIError` with status code 200
carrying the raw response text. -/
theorem http200_parsed_json (pf : String → Option ℚ) (cfg : Config)
    (behavior : Nat → AttemptResult) (url : String) (keys : List String) (rotIdx fuel : Nat)
    (r : HttpResponse) (hb : behavior 0 = .resp r) (hst : r.status = 200)
    (hkeys : keys ≠ []) (hfuel : 1 ≤ fuel) :
    (∀ j, r.jsonBody = some j →
      runLoop pf cfg behavior url fuel (initState keys rotIdx) =
        some (.success j, [.attempt (rotKey keys rotIdx)])) ∧
    (∀ t, r.jsonBody = Option.none → r.textBody = some t →
      runLoop pf cfg behavior url fuel (initState keys rotIdx) =
        some (.error ⟨nonJsonMsg, some 200, some url, some (Sum.inr t), Option.none⟩,
          [.attempt (rotKey keys rotIdx)])) := by
  obtain ⟨m, rfl⟩ : ∃ m, fuel = m + 1 := ⟨fuel - 1, (Nat.succ_pred_eq_of_pos hfuel).symm⟩
  constructor
  · intro j hj
    simp [runLoop, initState, isEmpty_false_of_ne_nil hkeys, hb, handleAttempt,
      handleResponse, hst, hj]
  · intro t hj ht
    simp [runLoop, initState, isEmpty_false_of_ne_nil hkeys, hb, handleAttempt,
      handleResponse, hst, hj, ht]

/-- C5 witness at concrete inputs: a parsable 200 body is returned as is,
and a non-JSON 200 body raises the status-200 error with the raw text. -/
theorem http200_parsed_json_witness :
    (runLoop (fun _ => Option.none) ⟨3, 5, 10⟩
        (fun _ => .resp ⟨200, some (PyVal.int 3), Option.none, Option.none, "OK"⟩) "u" 7
        (initState ["k"] 0) =
      some (.success (PyVal.int 3), [.attempt (rotKey ["k"] 0)])) ∧
    (runLoop (fun _ => Option.none) ⟨3, 5, 10⟩
        (fun _ => .resp ⟨200, Option.none, some "<html>", Option.none, "OK"⟩) "u" 7
        (initState ["k"] 0) =
      some (.error ⟨nonJsonMsg, some 200, some "u", some (Sum.inr "<html>"), Option.none⟩,
        [.attempt (rotKey ["k"] 0)])) :=
  ⟨(http200_parsed_json (fun _ => Option.none) ⟨3, 5, 10⟩
      (fun _ => .resp ⟨200, some (PyVal.int 3), Option.none, Option.none, "OK"⟩) "u" ["k"] 0 7
      ⟨200, some (PyVal.int 3), Option.none, Option.none, "OK"⟩ rfl rfl
      (by simp) (by simp)).1 (PyVal.int 3) rfl,
   (http200_parsed_json (fun _ => Option.none) ⟨3, 5, 10⟩
      (fun _ => .resp ⟨200, Option.none, some "<html>", Option.none, "OK"⟩) "u" ["k"] 0 7
      ⟨200, Option.none, some "<html>", Option.none, "OK"⟩ rfl rfl
      (by simp) (by simp)).2 "<html>" rfl rfl⟩

/-- C9: a 404 response makes `_api_request` — and hence every resource
method built on `_Resource._get`, whatever its path, suffix and kwargs —
return `None` (`Outcome.notFound`) after a single attempt, with no retry. -/
theorem http404_returns_none (pf : String → Option ℚ) (cfg : Config)
    (behavior : Nat → AttemptResult) (keys : List String) (rotIdx fuel : Nat)
    (r : HttpResponse) (hb : behavior 0 = .resp r) (hst : r.status = 404)
    (hkeys : keys ≠ []) (hfuel : 1 ≤ fuel) :
    ∀ path pathSuffix kwargs,
      resourceGetRun pf cfg behavior fuel keys rotIdx path pathSuffix kwargs =
        some (.notFound, [.attempt (rotKey keys rotIdx)]) := by
  obtain ⟨m, rfl⟩ : ∃ m, fuel = m + 1 := ⟨fuel - 1, (Nat.succ_pred_eq_of_pos hfuel).symm⟩
  intro path pathSuffix kwargs
  simp [resourceGetRun, runLoop, initState, isEmpty_false_of_ne_nil hkeys, hb, handleAttempt,
    handleResponse, hst]

/-- C9 witness at a concrete input: `Movie(client, 550).details()` under a
404 response returns `None` after one attempt. -/
theorem http404_returns_none_witness :
    resourceGetRun (fun _ => Option.none) ⟨3, 5, 10⟩
        (fun _ => .resp ⟨404, Option.none, some "nf", Option.none, "Not Found"⟩) 7 ["k"] 0
        (moviePath 550) "" [] =
      some (.notFound, [.attempt (rotKey ["k"] 0)]) :=
  http404_returns_none (fun _ => Option.none) ⟨3, 5, 10⟩
    (fun _ => .resp ⟨404, Option.none, some "nf", Option.none, "Not Found"⟩) ["k"] 0 7
    ⟨404, Option.none, some "nf", Option.none, "Not Found"⟩ rfl rfl
    (by simp) (by simp) (moviePath 550) "" []

lemma rotKey_mem {keys : List String} (h : keys ≠ []) (i : Nat) : rotKey keys i ∈ keys := by
  have hl : 0 < keys.length := List.length_pos.mpr h
  have hm : i % keys.length < keys.length := Nat.mod_lt _ hl
  rw [rotKey, List.getD_eq_getElem _ _ hm]
  exact List.getElem_mem _

lemma runLoop_all401 (pf : String → Option ℚ) (cfg : Config) (behavior : Nat → AttemptResult)
    (url : String) (r : HttpResponse)
    (hb : ∀ i, behavior i = .resp r) (hst : r.status = 401) :
    ∀ n keys rotIdx rl lastE tick fuel, keys.length = n → n + 1 ≤ fuel →
      runLoop pf cfg behavior url fuel ⟨keys, rotIdx, 0, rl, lastE, tick⟩ =
        some (.error ⟨allKeysMsg, Option.none, Option.none, Option.none, Option.none⟩,
          keys401Events n keys rotIdx) := by
  intro n
  induction n with
  | zero =>
    intro keys rotIdx rl lastE tick fuel hlen hfuel
    obtain ⟨m, rfl⟩ : ∃ m, fuel = m + 1 := ⟨fuel - 1, (Nat.succ_pred_eq_of_pos hfuel).symm⟩
    have hnil : keys = [] := List.length_eq_zero.mp hlen
    subst hnil
    simp [runLoop, keys401Events]
  | succ n ih =>
    intro keys rotIdx rl lastE tick fuel hlen hfuel
    obtain ⟨m, rfl⟩ : ∃ m, fuel = m + 1 :=
      ⟨fuel - 1, (Nat.succ_pred_eq_of_pos (Nat.lt_of_lt_of_le (Nat.succ_pos _) hfuel)).symm⟩
    have hne : keys ≠ [] := by
      intro hk; rw [hk] at hlen; exact Nat.succ_ne_zero n hlen.symm
    have hkmem : rotKey keys rotIdx ∈ keys := rotKey_mem hne rotIdx
    have hlen' : (keys.erase (rotKey keys rotIdx)).length = n := by
      rw [List.length_erase_of_mem hkmem, hlen]; rfl
    have hfuel' : n + 1 ≤ m := Nat.succ_le_succ_iff.mp hfuel
    have hih := ih (keys.erase (rotKey keys rotIdx))
      (if (keys.erase (rotKey keys rotIdx)).isEmpty then rotIdx + 1 else 0)
      rl lastE (tick + 1) m hlen' hfuel'
    have hstep :
        handleAttempt pf cfg url rl (behavior tick) = .invalidKey := by
      rw [hb tick]
      simp [handleAttempt, handleResponse, hst]
    rw [runLoop]
    simp only [isEmpty_false_of_ne_nil hne, Bool.false_eq_true, if_false,
      Nat.not_lt_zero, if_neg (Nat.not_lt_zero cfg.retries), hstep]
    rw [hih]
    have hevents :
        keys401Events (n + 1) keys rotIdx =
          Event.attempt (rotKey keys rotIdx) :: Event.removeKey (rotKey keys rotIdx) ::
            keys401Events n (keys.erase (rotKey keys rotIdx))
              (if (keys.erase (rotKey keys rotIdx)).isEmpty then rotIdx + 1 else 0) := by
      rw [keys401Events]
      simp only [isEmpty_false_of_ne_nil hne, Bool.false_eq_true, if_false]
      by_cases hemp : (keys.erase (rotKey keys rotIdx)).isEmpty
      · have hn0 : n = 0 := by
          rw [List.isEmpty_iff] at hemp
          rw [hemp] at hlen'
          exact hlen'.symm
        subst hn0
        simp [keys401Events]
      · simp [hemp]
    rw [hevents]
    rfl

/-- C2: when every attempt of a request comes back 401, each attempt's key
is removed from the active set and the rotator restarts over the remaining
keys (the attempts walk through all the keys, none counted against the
network-retry budget — the statement holds for every `retries`, including
zero), and once the keys are exhausted the request raises the
`TMDbAPIError` "All API keys have been invalidated or exhausted." instead
of issuing another attempt. -/
theorem http401_rotates_and_exhausts_keys (pf : String → Option ℚ) (cfg : Config)
    (behavior : Nat → AttemptResult) (url : String) (r : HttpResponse)
    (keys : List String) (rotIdx fuel : Nat)
    (hb : ∀ i, behavior i = .resp r) (hst : r.status = 401)
    (hfuel : keys.length + 1 ≤ fuel) :
    runLoop pf cfg behavior url fuel (initState keys rotIdx) =
      some (.error ⟨allKeysMsg, Option.none, Option.none, Option.none, Option.none⟩,
        keys401Events keys.length keys rotIdx) :=
  runLoop_all401 pf cfg behavior url r hb hst keys.length keys rotIdx 0 Option.none 0 fuel
    rfl hfuel

/-- C2 witness: with two keys and a zero network-retry budget, an
all-401 server still gets two attempts (one per key, each then removed)
before the exhaustion error. -/
theorem http401_rotates_and_exhausts_keys_witness :
    runLoop (fun _ => Option.none) ⟨0, 5, 10⟩
        (fun _ => .resp ⟨401, Option.none, some "unauth", Option.none, "Unauthorized"⟩) "u" 9
        (initState ["a", "b"] 0) =
      some (.error ⟨allKeysMsg, Option.none, Option.none, Option.none, Option.none⟩,
        keys401Events 2 ["a", "b"] 0) :=
  http401_rotates_and_exhausts_keys (fun _ => Option.none) ⟨0, 5, 10⟩
    (fun _ => .resp ⟨401, Option.none, some "unauth", Option.none, "Unauthorized"⟩) "u"
    ⟨401, Option.none, some "unauth", Option.none, "Unauthorized"⟩ ["a", "b"] 0 9
    (fun _ => rfl) rfl (by decide)

lemma runLoop_allNetFail (pf : String → Option ℚ) (cfg : Config)
    (behavior : Nat → AttemptResult) (url : String) (e : Nat → String)
    (hb : ∀ i rl, handleAttempt pf cfg url rl (behavior i) = .netCaught (e i)) :
    ∀ rem a fuel keys rotIdx rl lastE tick, keys ≠ [] → a + rem = cfg.retries →
      rem + 1 ≤ fuel →
      runLoop pf cfg behavior url fuel ⟨keys, rotIdx, a, rl, lastE, tick⟩ =
        some (.error ⟨netFailMsg (cfg.retries + 1), Option.none, some url, Option.none,
            some (e (tick + rem))⟩,
          (List.range rem).flatMap (fun j =>
            [Event.attempt (rotKey keys (rotIdx + j)),
             Event.sleep ((cfg.retryDelay * (a + 1 + j) : ℕ) : ℚ)]) ++
          [Event.attempt (rotKey keys (rotIdx + rem))]) := by
  intro rem
  induction rem with
  | zero =>
    intro a fuel keys rotIdx rl lastE tick hkeys ha hfuel
    obtain ⟨m, rfl⟩ : ∃ m, fuel = m + 1 := ⟨fuel - 1, (Nat.succ_pred_eq_of_pos hfuel).symm⟩
    rw [runLoop]
    simp only [isEmpty_false_of_ne_nil hkeys, Bool.false_eq_true, if_false]
    rw [if_neg (by omega : ¬ cfg.retries < a), hb tick rl]
    dsimp only
    rw [if_neg (by omega : ¬ a + 1 ≤ cfg.retries)]
    have hmsg : a + 1 = cfg.retries + 1 := by omega
    simp [hmsg]
  | succ rem ih =>
    intro a fuel keys rotIdx rl lastE tick hkeys ha hfuel
    obtain ⟨m, rfl⟩ : ∃ m, fuel = m + 1 := ⟨fuel - 1, (Nat.succ_pred_eq_of_pos (by omega)).symm⟩
    rw [runLoop]
    simp only [isEmpty_false_of_ne_nil hkeys, Bool.false_eq_true, if_false]
    rw [if_neg (by omega : ¬ cfg.retries < a), hb tick rl]
    dsimp only
    rw [if_pos (by omega : a + 1 ≤ cfg.retries)]
    rw [ih (a + 1) m keys (rotIdx + 1) rl (some (e tick)) (tick + 1) hkeys (by omega) (by omega)]
    have htick : tick + 1 + rem = tick + (rem + 1) := by omega
    rw [htick]
    have hfun :
        (fun j => [Event.attempt (rotKey keys (rotIdx + 1 + j)),
            Event.sleep ((cfg.retryDelay * (a + 1 + 1 + j) : ℕ) : ℚ)]) =
        (fun j => [Event.attempt (rotKey keys (rotIdx + (j + 1))),
            Event.sleep ((cfg.retryDelay * (a + 1 + (j + 1)) : ℕ) : ℚ)]) := by
      funext j
      rw [show rotIdx + 1 + j = rotIdx + (j + 1) by omega,
        show a + 1 + 1 + j = a + 1 + (j + 1) by omega]
    rw [hfun]
    have hsplit :
        (List.range (rem + 1)).flatMap (fun j =>
            [Event.attempt (rotKey keys (rotIdx + j)),
             Event.sleep ((cfg.retryDelay * (a + 1 + j) : ℕ) : ℚ)]) =
          [Event.attempt (rotKey keys (rotIdx + 0)),
           Event.sleep ((cfg.retryDelay * (a + 1 + 0) : ℕ) : ℚ)] ++
          (List.range rem).flatMap (fun j =>
            [Event.attempt (rotKey keys (rotIdx + (j + 1))),
             Event.sleep ((cfg.retryDelay * (a + 1 + (j + 1)) : ℕ) : ℚ)]) := by
      rw [List.range_succ_eq_map, List.flatMap_cons, List.flatMap_map]
    rw [hsplit]
    simp only [Option.map_some, Nat.add_zero, List.cons_append, List.nil_append]
    have hidx : rotIdx + (rem + 1) = rotIdx + 1 + rem := by omega
    rw [hidx]
    rfl

/-- C1: when every attempt of a request fails with a network error
(`aiohttp.ClientError` or `asyncio.TimeoutError`), `_api_request` makes the
initial attempt plus exactly `retries` retries (`retries + 1` attempts in
all, never more), sleeps `retry_delay * attempt_number` seconds before the
`attempt_number`-th retry, and then raises a `TMDbAPIError` chained from
the last network exception. -/
theorem network_errors_bounded_retries (pf : String → Option ℚ) (cfg : Config)
    (behavior : Nat → AttemptResult) (url : String) (e : Nat → String)
    (keys : List String) (rotIdx fuel : Nat)
    (hb : ∀ i, behavior i = .netErr (e i)) (hkeys : keys ≠ [])
    (hfuel : cfg.retries + 1 ≤ fuel) :
    runLoop pf cfg behavior url fuel (initState keys rotIdx) =
      some (.error ⟨netFailMsg (cfg.retries + 1), Option.none, some url, Option.none,
          some (e cfg.retries)⟩,
        (List.range cfg.retries).flatMap (fun j =>
          [Event.attempt (rotKey keys (rotIdx + j)),
           Event.sleep ((cfg.retryDelay * (j + 1) : ℕ) : ℚ)]) ++
        [Event.attempt (rotKey keys (rotIdx + cfg.retries))]) := by
  have h := runLoop_allNetFail pf cfg behavior url e
    (fun i rl => by rw [hb i]; rfl)
    cfg.retries 0 fuel keys rotIdx 0 Option.none 0 hkeys (by omega) (by omega)
  rw [initState, h]
  have hfun :
      (fun j => [Event.attempt (rotKey keys (rotIdx + j)),
          Event.sleep ((cfg.retryDelay * (0 + 1 + j) : ℕ) : ℚ)]) =
      (fun j => [Event.attempt (rotKey keys (rotIdx + j)),
          Event.sleep ((cfg.retryDelay * (j + 1) : ℕ) : ℚ)]) := by
    funext j
    rw [show 0 + 1 + j = j + 1 by omega]
  rw [hfun, Nat.zero_add]

/-- C1 witness: with `retries = 2`, `retry_delay = 7` and a server that
always times out, the request makes three attempts, sleeping 7 s and then
14 s before the two retries, and raises the chained error. -/
theorem network_errors_bounded_retries_witness :
    runLoop (fun _ => Option.none) ⟨2, 7, 10⟩ (fun _ => .netErr "timeout") "u" 3
        (initState ["a", "b"] 0) =
      some (.error ⟨netFailMsg 3, Option.none, some "u", Option.none, some "timeout"⟩,
        (List.range 2).flatMap (fun j =>
          [Event.attempt (rotKey ["a", "b"] (0 + j)),
           Event.sleep ((7 * (j + 1) : ℕ) : ℚ)]) ++
        [Event.attempt (rotKey ["a", "b"] (0 + 2))]) :=
  network_errors_bounded_retries (fun _ => Option.none) ⟨2, 7, 10⟩
    (fun _ => .netErr "timeout") "u" (fun _ => "timeout") ["a", "b"] 0 3
    (fun _ => rfl) (by simp) (by decide)

/-- C10: a persistent 5xx status is converted into an internal
`aiohttp.ClientResponseError`, caught by the network-error handler, and so
retried under the same bounded backoff policy as a network error; when it
persists, the request surfaces the generic post-loop `TMDbAPIError` chained
from that internal exception, not an immediate API error. -/
theorem http5xx_retried_as_network_error (pf : String → Option ℚ) (cfg : Config)
    (behavior : Nat → AttemptResult) (url : String) (r : HttpResponse)
    (keys : List String) (rotIdx fuel : Nat)
    (hb : ∀ i, behavior i = .resp r) (h5 : 500 ≤ r.status) (h6 : r.status < 600)
    (hkeys : keys ≠ []) (hfuel : cfg.retries + 1 ≤ fuel) :
    runLoop pf cfg behavior url fuel (initState keys rotIdx) =
      some (.error ⟨netFailMsg (cfg.retries + 1), Option.none, some url, Option.none,
          some (clientRespErrStr r.status (bodyAndMsg r).2)⟩,
        (List.range cfg.retries).flatMap (fun j =>
          [Event.attempt (rotKey keys (rotIdx + j)),
           Event.sleep ((cfg.retryDelay * (j + 1) : ℕ) : ℚ)]) ++
        [Event.attempt (rotKey keys (rotIdx + cfg.retries))]) := by
  have hstep : ∀ i rl, handleAttempt pf cfg url rl (behavior i) =
      .netCaught (clientRespErrStr r.status (bodyAndMsg r).2) := by
    intro i rl
    rw [hb i]
    show handleResponse pf cfg url rl r = _
    rw [handleResponse]
    rw [if_neg (by omega : ¬ r.status = 200), if_neg (by omega : ¬ r.status = 404),
      if_neg (by omega : ¬ r.status = 401), if_neg (by omega : ¬ r.status = 429)]
    rw [if_pos ⟨h5, h6⟩]
  have h := runLoop_allNetFail pf cfg behavior url
    (fun _ => clientRespErrStr r.status (bodyAndMsg r).2) hstep
    cfg.retries 0 fuel keys rotIdx 0 Option.none 0 hkeys (by omega) (by omega)
  rw [initState, h]
  have hfun :
      (fun j => [Event.attempt (rotKey keys (rotIdx + j)),
          Event.sleep ((cfg.retryDelay * (0 + 1 + j) : ℕ) : ℚ)]) =
      (fun j => [Event.attempt (rotKey keys (rotIdx + j)),
          Event.sleep ((cfg.retryDelay * (j + 1) : ℕ) : ℚ)]) := by
    funext j
    rw [show 0 + 1 + j = j + 1 by omega]
  rw [hfun]

/-- C10 witness: a server that always answers 503 exhausts the retry budget
and surfaces the generic chained failure. -/
theorem http5xx_retried_as_network_error_witness :
    runLoop (fun _ => Option.none) ⟨2, 7, 10⟩
        (fun _ => .resp ⟨503, Option.none, some "unavailable", Option.none, "Service Unavailable"⟩)
        "u" 3 (initState ["a", "b"] 0) =
      some (.error ⟨netFailMsg 3, Option.none, some "u", Option.none,
          some (clientRespErrStr 503
            (bodyAndMsg ⟨503, Option.none, some "unavailable", Option.none, "Service Unavailable"⟩).2)⟩,
        (List.range 2).flatMap (fun j =>
          [Event.attempt (rotKey ["a", "b"] (0 + j)),
           Event.sleep ((7 * (j + 1) : ℕ) : ℚ)]) ++
        [Event.attempt (rotKey ["a", "b"] (0 + 2))]) :=
  http5xx_retried_as_network_error (fun _ => Option.none) ⟨2, 7, 10⟩
    (fun _ => .resp ⟨503, Option.none, some "unavailable", Option.none, "Service Unavailable"⟩)
    "u" ⟨503, Option.none, some "unavailable", Option.none, "Service Unavailable"⟩ ["a", "b"] 0 3
    (fun _ => rfl) (by decide) (by decide) (by simp) (by decide)

lemma runLoop_all429 (pf : String → Option ℚ) (cfg : Config) (behavior : Nat → AttemptResult)
    (url : String) (r : HttpResponse)
    (hb : ∀ i, behavior i = .resp r) (hst : r.status = 429) :
    ∀ rem rl fuel keys rotIdx lastE tick, keys ≠ [] → rl + rem = 5 → rem + 1 ≤ fuel →
      runLoop pf cfg behavior url fuel ⟨keys, rotIdx, 0, rl, lastE, tick⟩ =
        some (.error ⟨rateLimitMsg, some 429, some url, Option.none, Option.none⟩,
          (List.range rem).flatMap (fun j =>
            [Event.attempt (rotKey keys (rotIdx + j)), Event.sleep (rateLimitDelay pf cfg r)]) ++
          [Event.attempt (rotKey keys (rotIdx + rem))]) := by
  intro rem
  induction rem with
  | zero =>
    intro rl fuel keys rotIdx lastE tick hkeys hrl hfuel
    obtain ⟨m, rfl⟩ : ∃ m, fuel = m + 1 := ⟨fuel - 1, (Nat.succ_pred_eq_of_pos hfuel).symm⟩
    have hstep : handleAttempt pf cfg url rl (behavior tick) =
        .done (.error ⟨rateLimitMsg, some 429, some url, Option.none, Option.none⟩) := by
      rw [hb tick]
      show handleResponse pf cfg url rl r = _
      rw [handleResponse]
      rw [if_neg (by omega : ¬ r.status = 200), if_neg (by omega : ¬ r.status = 404),
        if_neg (by omega : ¬ r.status = 401), if_pos hst, if_pos (by omega : 5 ≤ rl)]
    rw [runLoop]
    simp only [isEmpty_false_of_ne_nil hkeys, Bool.false_eq_true, if_false]
    rw [if_neg (Nat.not_lt_zero cfg.retries), hstep]
    simp
  | succ rem ih =>
    intro rl fuel keys rotIdx lastE tick hkeys hrl hfuel
    obtain ⟨m, rfl⟩ : ∃ m, fuel = m + 1 := ⟨fuel - 1, (Nat.succ_pred_eq_of_pos (by omega)).symm⟩
    have hstep : handleAttempt pf cfg url rl (behavior tick) =
        .rateLimited (rateLimitDelay pf cfg r) := by
      rw [hb tick]
      show handleResponse pf cfg url rl r = _
      rw [handleResponse]
      rw [if_neg (by omega : ¬ r.status = 200), if_neg (by omega : ¬ r.status = 404),
        if_neg (by omega : ¬ r.status = 401), if_pos hst, if_neg (by omega : ¬ 5 ≤ rl)]
    rw [runLoop]
    simp only [isEmpty_false_of_ne_nil hkeys, Bool.false_eq_true, if_false]
    rw [if_neg (Nat.not_lt_zero cfg.retries), hstep]
    dsimp only
    rw [ih (rl + 1) m keys (rotIdx + 1) lastE (tick + 1) hkeys (by omega) (by omega)]
    have hfun :
        (fun j => [Event.attempt (rotKey keys (rotIdx + 1 + j)),
            Event.sleep (rateLimitDelay pf cfg r)]) =
        (fun j => [Event.attempt (rotKey keys (rotIdx + (j + 1))),
            Event.sleep (rateLimitDelay pf cfg r)]) := by
      funext j
      rw [show rotIdx + 1 + j = rotIdx + (j + 1) by omega]
    rw [hfun]
    have hsplit :
        (List.range (rem + 1)).flatMap (fun j =>
            [Event.attempt (rotKey keys (rotIdx + j)), Event.sleep (rateLimitDelay pf cfg r)]) =
          [Event.attempt (rotKey keys (rotIdx + 0)), Event.sleep (rateLimitDelay pf cfg r)] ++
          (List.range rem).flatMap (fun j =>
            [Event.attempt (rotKey keys (rotIdx + (j + 1))),
             Event.sleep (rateLimitDelay pf cfg r)]) := by
      rw [List.range_succ_eq_map, List.flatMap_cons, List.flatMap_map]
    rw [hsplit]
    have hidx : rotIdx + (rem + 1) = rotIdx + 1 + rem := by omega
    rw [hidx]
    rfl

/-- C3: when every attempt of a request comes back 429, the client sleeps
before each retry for `float(Retry-After)` seconds when that header is
present and parses (otherwise `default_cooldown` seconds) and retries;
after the five allowed rate-limit retries, the sixth 429 raises the
`TMDbAPIError` "Max rate limit retries exceeded." with status code 429.
The hypothesis `hpf` records that Python's `float()` rejects the empty
string, which squares the code's truthiness test with the claim's
"present and parses" reading. -/
theorem http429_backoff_and_limit (pf : String → Option ℚ) (cfg : Config)
    (behavior : Nat → AttemptResult) (url : String) (r : HttpResponse)
    (keys : List String) (rotIdx fuel : Nat)
    (hb : ∀ i, behavior i = .resp r) (hst : r.status = 429)
    (hkeys : keys ≠ []) (hfuel : 6 ≤ fuel) (hpf : pf "" = Option.none) :
    runLoop pf cfg behavior url fuel (initState keys rotIdx) =
      some (.error ⟨rateLimitMsg, some 429, some url, Option.none, Option.none⟩,
        (List.range 5).flatMap (fun j =>
          [Event.attempt (rotKey keys (rotIdx + j)), Event.sleep (rateLimitDelay pf cfg r)]) ++
        [Event.attempt (rotKey keys (rotIdx + 5))]) ∧
    rateLimitDelay pf cfg r = (r.retryAfter.bind pf).getD ((cfg.defaultCooldown : ℕ) : ℚ) := by
  constructor
  · exact runLoop_all429 pf cfg behavior url r hb hst 5 0 fuel keys rotIdx Option.none 0
      hkeys (by omega) (by omega)
  · rw [rateLimitDelay]
    cases hra : r.retryAfter with
    | none => rfl
    | some ra =>
      dsimp only
      by_cases hempty : ra = ""
      · subst hempty
        simp [hpf]
      · rw [if_neg (by simpa using hempty)]
        cases hp : pf ra with
        | none => simp [hp]
        | some f => simp [hp]

/-- C3 witness: a server that always answers 429 with `Retry-After: 2.5`
gets six attempts with five 2.5-second sleeps in between, then the 429
error; the delay equals the parsed header. -/
theorem http429_backoff_and_limit_witness :
    (runLoop (fun s => if s == "2.5" then some ((5 : ℚ) / 2) else Option.none) ⟨3, 7, 10⟩
        (fun _ => .resp ⟨429, Option.none, Option.none, some "2.5", "Too Many Requests"⟩) "u" 6
        (initState ["k"] 0) =
      some (.error ⟨rateLimitMsg, some 429, some "u", Option.none, Option.none⟩,
        (List.range 5).flatMap (fun j =>
          [Event.attempt (rotKey ["k"] (0 + j)),
           Event.sleep (rateLimitDelay (fun s => if s == "2.5" then some ((5 : ℚ) / 2) else Option.none)
             ⟨3, 7, 10⟩ ⟨429, Option.none, Option.none, some "2.5", "Too Many Requests"⟩)]) ++
        [Event.attempt (rotKey ["k"] (0 + 5))])) ∧
    rateLimitDelay (fun s => if s == "2.5" then some ((5 : ℚ) / 2) else Option.none)
        ⟨3, 7, 10⟩ ⟨429, Option.none, Option.none, some "2.5", "Too Many Requests"⟩ =
      (((⟨429, Option.none, Option.none, some "2.5", "Too Many Requests"⟩ : HttpResponse).retryAfter.bind
          (fun s => if s == "2.5" then some ((5 : ℚ) / 2) else Option.none)).getD ((10 : ℕ) : ℚ)) :=
  http429_backoff_and_limit (fun s => if s == "2.5" then some ((5 : ℚ) / 2) else Option.none)
    ⟨3, 7, 10⟩ (fun _ => .resp ⟨429, Option.none, Option.none, some "2.5", "Too Many Requests"⟩)
    "u" ⟨429, Option.none, Option.none, some "2.5", "Too Many Requests"⟩ ["k"] 0 6
    (fun _ => rfl) rfl (by simp) (by omega) rfl

lemma isSome_map {α β : Type} (f : α → β) (o : Option α) : (o.map f).isSome = o.isSome := by
  cases o <;> rfl

lemma handleAttempt_cases (pf : String → Option ℚ) (cfg : Config) (url : String)
    (rl : Nat) (x : AttemptResult) :
    (∃ o, handleAttempt pf cfg url rl x = .done o) ∨
    (handleAttempt pf cfg url rl x = .invalidKey) ∨
    (∃ d, handleAttempt pf cfg url rl x = .rateLimited d ∧ rl < 5) ∨
    (∃ e, handleAttempt pf cfg url rl x = .netCaught e) := by
  cases x with
  | netErr e => exact Or.inr (Or.inr (Or.inr ⟨e, rfl⟩))
  | resp r =>
    show (∃ o, handleResponse pf cfg url rl r = .done o) ∨
      (handleResponse pf cfg url rl r = .invalidKey) ∨
      (∃ d, handleResponse pf cfg url rl r = .rateLimited d ∧ rl < 5) ∨
      (∃ e, handleResponse pf cfg url rl r = .netCaught e)
    rw [handleResponse]
    split_ifs with h200 h404 h401 h429 hge h5xx
    · cases hj : r.jsonBody with
      | some j => exact Or.inl ⟨.success j, rfl⟩
      | none =>
        cases ht : r.textBody with
        | some t => exact Or.inl ⟨_, rfl⟩
        | none => exact Or.inr (Or.inr (Or.inr ⟨_, rfl⟩))
    · exact Or.inl ⟨_, rfl⟩
    · exact Or.inr (Or.inl rfl)
    · exact Or.inl ⟨_, rfl⟩
    · exact Or.inr (Or.inr (Or.inl ⟨_, rfl, by omega⟩))
    · exact Or.inr (Or.inr (Or.inr ⟨_, rfl⟩))
    · exact Or.inl ⟨_, rfl⟩

/-- C4: the request loop of `_api_request` always terminates: from any
state, with any server behavior, `loopFuel` iterations suffice for the
loop to return or raise — each continuing iteration strictly shrinks the
finite key list (401), or strictly increases `rate_limit_attempts`
(bounded by 5), or strictly increases `network_attempts` (bounded by
`retries`). -/
theorem request_loop_terminates (pf : String → Option ℚ) (cfg : Config)
    (behavior : Nat → AttemptResult) (url : String) :
    ∀ fuel s, loopFuel cfg s ≤ fuel → (runLoop pf cfg behavior url fuel s).isSome = true := by
  intro fuel
  induction fuel with
  | zero =>
    intro s h
    rw [loopFuel] at h
    omega
  | succ fuel ih =>
    intro s hle
    rw [loopFuel] at hle
    rw [runLoop]
    by_cases hkeys : s.keys.isEmpty
    · simp [hkeys]
    · simp only [hkeys, Bool.false_eq_true, if_false]
      by_cases hna : cfg.retries < s.netAttempts
      · simp [hna]
      · rw [if_neg hna]
        have hne : s.keys ≠ [] := fun h => hkeys (by rw [h]; rfl)
        have hpos : 0 < s.keys.length := List.length_pos.mpr hne
        rcases handleAttempt_cases pf cfg url s.rlAttempts (behavior s.tick) with
          ⟨o, ho⟩ | ho | ⟨d, ho, hrl⟩ | ⟨e, ho⟩
        · rw [ho]
          rfl
        · rw [ho]
          dsimp only
          rw [isSome_map]
          apply ih
          have hmem := rotKey_mem hne s.rotIdx
          have hlen := List.length_erase_of_mem hmem
          rw [loopFuel]
          dsimp only
          omega
        · rw [ho]
          dsimp only
          rw [isSome_map]
          apply ih
          rw [loopFuel]
          dsimp only
          omega
        · rw [ho]
          dsimp only
          by_cases hbudget : s.netAttempts + 1 ≤ cfg.retries
          · rw [if_pos hbudget, isSome_map]
            apply ih
            rw [loopFuel]
            dsimp only
            omega
          · rw [if_neg hbudget]
            rfl

/-- C4 witness: a concrete loop state is settled within its computed fuel. -/
theorem request_loop_terminates_witness :
    (runLoop (fun _ => Option.none) ⟨3, 5, 10⟩ (fun _ => .netErr "boom") "u"
        (loopFuel ⟨3, 5, 10⟩ (initState ["a", "b"] 0)) (initState ["a", "b"] 0)).isSome = true :=
  request_loop_terminates (fun _ => Option.none) ⟨3, 5, 10⟩ (fun _ => .netErr "boom") "u"
    (loopFuel ⟨3, 5, 10⟩ (initState ["a", "b"] 0)) (initState ["a", "b"] 0) (by omega)

lemma dictContains_eq_false {d : List (String × PyVal)} {k : String}
    (h : k ∉ d.map Prod.fst) : dictContains d k = false := by
  rw [dictContains, List.any_eq_false]
  intro p hp hbeq
  exact h (List.mem_map.mpr ⟨p, hp, eq_of_beq hbeq⟩)

lemma dictSet_not_contains {d : List (String × PyVal)} {k : String} {v : PyVal}
    (h : dictContains d k = false) : dictSet d k v = d ++ [(k, v)] := by
  rw [dictSet, h]
  simp

lemma sanitizeStep_spec {clean : List (String × PyVal)} {k : String} (v : PyVal)
    (hcont : dictContains clean k = false) :
    sanitizeStep clean (k, v) = clean ++ (sanitizeEntrySpec (k, v)).toList := by
  cases v with
  | none =>
    have h1 : sanitizeStep clean (k, .none) = clean := rfl
    rw [h1]
    simp [sanitizeEntrySpec, sanitizeValueSpec]
  | bool b =>
    have hlow : PyVal.str (strLower (pyStr (.bool b))) =
        PyVal.str (if b then "true" else "false") := by cases b <;> rfl
    have h1 : sanitizeStep clean (k, .bool b) =
        dictSet clean k (.str (strLower (pyStr (.bool b)))) := rfl
    rw [h1, hlow, dictSet_not_contains hcont]
    simp [sanitizeEntrySpec, sanitizeValueSpec]
  | list xs =>
    have h1 : sanitizeStep clean (k, .list xs) =
        (match sanitizeSeqValue xs with
          | some v => dictSet clean k v
          | Option.none => clean) := rfl
    rw [h1, sanitizeSeqValue]
    by_cases hit : ((xs.filter (fun x => !x.isNone)).map pyStr).isEmpty
    · simp [hit, sanitizeEntrySpec, sanitizeValueSpec]
    · simp [hit, sanitizeEntrySpec, sanitizeValueSpec, dictSet_not_contains hcont]
  | tuple xs =>
    have h1 : sanitizeStep clean (k, .tuple xs) =
        (match sanitizeSeqValue xs with
          | some v => dictSet clean k v
          | Option.none => clean) := rfl
    rw [h1, sanitizeSeqValue]
    by_cases hit : ((xs.filter (fun x => !x.isNone)).map pyStr).isEmpty
    · simp [hit, sanitizeEntrySpec, sanitizeValueSpec]
    · simp [hit, sanitizeEntrySpec, sanitizeValueSpec, dictSet_not_contains hcont]
  | int n =>
    have h1 : sanitizeStep clean (k, .int n) = dictSet clean k (.int n) := rfl
    rw [h1, dictSet_not_contains hcont]
    simp [sanitizeEntrySpec, sanitizeValueSpec]
  | str s =>
    have h1 : sanitizeStep clean (k, .str s) = dictSet clean k (.str s) := rfl
    rw [h1, dictSet_not_contains hcont]
    simp [sanitizeEntrySpec, sanitizeValueSpec]
  | dict fs =>
    have h1 : sanitizeStep clean (k, .dict fs) = dictSet clean k (.dict fs) := rfl
    rw [h1, dictSet_not_contains hcont]
    simp [sanitizeEntrySpec, sanitizeValueSpec]

lemma sanitizeEntrySpec_key {k : String} {v : PyVal} {p : String × PyVal}
    (hp : p ∈ (sanitizeEntrySpec (k, v)).toList) : p.1 = k := by
  rw [sanitizeEntrySpec] at hp
  cases h : sanitizeValueSpec v with
  | none => rw [h] at hp; cases hp
  | some w =>
    rw [h] at hp
    simp at hp
    rw [hp]

lemma sanitize_foldl :
    ∀ (params clean : List (String × PyVal)),
      (∀ k, k ∈ clean.map Prod.fst → k ∉ params.map Prod.fst) →
      (params.map Prod.fst).Nodup →
      params.foldl sanitizeStep clean = clean ++ params.filterMap sanitizeEntrySpec := by
  intro params
  induction params with
  | nil => intro clean _ _; simp
  | cons kv rest ih =>
    intro clean hdisj hnd
    obtain ⟨k, v⟩ := kv
    rw [List.foldl_cons]
    have hkmem : k ∈ ((k, v) :: rest).map Prod.fst := by simp
    have hnotin : k ∉ clean.map Prod.fst := fun hk => hdisj k hk hkmem
    have hcont : dictContains clean k = false := dictContains_eq_false hnotin
    rw [sanitizeStep_spec v hcont]
    have hknotrest : k ∉ rest.map Prod.fst := by
      rw [List.map_cons, List.nodup_cons] at hnd
      exact hnd.1
    have hdisj' : ∀ k', k' ∈ (clean ++ (sanitizeEntrySpec (k, v)).toList).map Prod.fst →
        k' ∉ rest.map Prod.fst := by
      intro k' hk'
      rw [List.map_append, List.mem_append] at hk'
      rcases hk' with hk' | hk'
      · intro hmem
        exact hdisj k' hk' (by rw [List.map_cons]; exact List.mem_cons_of_mem _ hmem)
      · obtain ⟨p, hp, rfl⟩ := List.mem_map.mp hk'
        rw [sanitizeEntrySpec_key hp]
        exact hknotrest
    have hnd' : (rest.map Prod.fst).Nodup := by
      rw [List.map_cons, List.nodup_cons] at hnd
      exact hnd.2
    rw [ih (clean ++ (sanitizeEntrySpec (k, v)).toList) hdisj' hnd']
    rw [List.append_assoc]
    congr 1
    cases hspec : sanitizeEntrySpec (k, v) with
    | none => simp [List.filterMap_cons, hspec]
    | some q => simp [List.filterMap_cons, hspec]

/-- C7: on a dictionary (association list with distinct keys),
`_sanitize_params` is exactly the per-entry transform of the claim: `None`
values are dropped, bools become `"true"`/`"false"`, lists and tuples
become comma-joined strings of the `str()` of their non-`None` elements
(the key being dropped when none remain), and all other values are kept
unchanged. -/
theorem sanitize_params_spec_desc (params : List (String × PyVal))
    (hnd : (params.map Prod.fst).Nodup) :
    sanitize_params params = params.filterMap sanitizeEntrySpec := by
  rw [sanitize_params, sanitize_foldl params [] (by simp) hnd]
  simp

/-- C7 witness on a concrete dictionary exercising every arm. -/
theorem sanitize_params_spec_desc_witness :
    sanitize_params
        [("a", .none), ("b", .bool true), ("c", .bool false),
         ("d", .list [.int 1, .none, .str "x"]), ("e", .tuple [.none]),
         ("f", .str "keep"), ("g", .int 9)] =
      [("a", .none), ("b", .bool true), ("c", .bool false),
       ("d", .list [.int 1, .none, .str "x"]), ("e", .tuple [.none]),
       ("f", .str "keep"), ("g", .int 9)].filterMap sanitizeEntrySpec :=
  sanitize_params_spec_desc
    [("a", .none), ("b", .bool true), ("c", .bool false),
     ("d", .list [.int 1, .none, .str "x"]), ("e", .tuple [.none]),
     ("f", .str "keep"), ("g", .int 9)] (by decide)

lemma map_getD_range {α : Type} (l : List α) (d : α) :
    (List.range l.length).map (fun m => l.getD m d) = l := by
  induction l with
  | nil => rfl
  | cons a t ih =>
    rw [List.length_cons, List.range_succ_eq_map, List.map_cons, List.map_map]
    have hcomp : ((fun m => (a :: t).getD m d) ∘ Nat.succ) = (fun m => t.getD m d) := by
      funext m
      simp [List.getD_cons_succ]
    rw [hcomp, ih]
    rfl

lemma rotKey_window_perm (keys : List String) (hne : keys ≠ []) (i : Nat) :
    ((List.range keys.length).map (fun j => rotKey keys (i + j))).Perm keys := by
  have hn : 0 < keys.length := List.length_pos.mpr hne
  have hnodup : ((List.range keys.length).map (fun j => (i + j) % keys.length)).Nodup := by
    apply List.Nodup.map_on _ (List.nodup_range keys.length)
    intro x hx y hy hxy
    rw [List.mem_range] at hx hy
    have hmx : x % keys.length = x := Nat.mod_eq_of_lt hx
    have hmy : y % keys.length = y := Nat.mod_eq_of_lt hy
    have hmeq : x ≡ y [MOD keys.length] := Nat.ModEq.add_left_cancel' i hxy
    calc x = x % keys.length := hmx.symm
      _ = y % keys.length := hmeq
      _ = y := hmy
  have hsub : ((List.range keys.length).map (fun j => (i + j) % keys.length)).toFinset ⊆
      (List.range keys.length).toFinset := by
    intro a ha
    rw [List.mem_toFinset] at ha ⊢
    obtain ⟨j, hj, rfl⟩ := List.mem_map.mp ha
    rw [List.mem_range]
    exact Nat.mod_lt _ hn
  have hcard1 : ((List.range keys.length).map (fun j => (i + j) % keys.length)).toFinset.card =
      keys.length := by
    rw [List.toFinset_card_of_nodup hnodup, List.length_map, List.length_range]
  have hcard2 : (List.range keys.length).toFinset.card = keys.length := by
    rw [List.toFinset_card_of_nodup (List.nodup_range keys.length), List.length_range]
  have heq := Finset.eq_of_subset_of_card_le hsub (by rw [hcard1, hcard2])
  have hmodperm := List.perm_of_nodup_nodup_toFinset_eq hnodup (List.nodup_range keys.length) heq
  have hcompose :
      ((List.range keys.length).map (fun j => (i + j) % keys.length)).map
          (fun m => keys.getD m "") =
        (List.range keys.length).map (fun j => rotKey keys (i + j)) := by
    rw [List.map_map]
    rfl
  have h2 := hmodperm.map (fun m => keys.getD m "")
  rw [hcompose, map_getD_range keys ""] at h2
  exact h2

/-- C8: key selection is round-robin. After `TMDbOneClient.__init__`,
the active keys are the constructor's keys with duplicates collapsed
(`set(api_keys)`), a fixed duplicate-free enumeration; the key of the
`i`-th `next()` call since the rotator was (re)built is entry `i mod n` of
that enumeration; and over any `n` consecutive attempts without a rebuild
the keys used are a permutation of the active keys — each used exactly
once. -/
theorem round_robin_key_rotation (apiKeys : List String) (c : ClientState)
    (h : clientInit apiKeys = some c) :
    c.activeKeys = apiKeys.dedup ∧ c.activeKeys.Nodup ∧
    (∀ i, rotKey c.activeKeys i = c.activeKeys.getD (i % c.activeKeys.length) "") ∧
    (∀ i, ((List.range c.activeKeys.length).map
        (fun j => rotKey c.activeKeys (i + j))).Perm c.activeKeys) := by
  rw [clientInit] at h
  by_cases he : apiKeys.isEmpty
  · rw [if_pos he] at h
    cases h
  · rw [if_neg he] at h
    injection h with h'
    subst h'
    have hne : apiKeys.dedup ≠ [] := by
      intro hd
      rw [List.dedup_eq_nil] at hd
      rw [hd] at he
      exact he rfl
    exact ⟨rfl, apiKeys.nodup_dedup, fun i => rfl, fun i => rotKey_window_perm _ hne i⟩

/-- C8 witness: a concrete client built from a duplicated key list. -/
theorem round_robin_key_rotation_witness :
    (ClientState.mk (List.dedup ["a", "b", "a"]) 0).activeKeys = List.dedup ["a", "b", "a"] ∧
    (ClientState.mk (List.dedup ["a", "b", "a"]) 0).activeKeys.Nodup ∧
    (∀ i, rotKey (ClientState.mk (List.dedup ["a", "b", "a"]) 0).activeKeys i =
      (ClientState.mk (List.dedup ["a", "b", "a"]) 0).activeKeys.getD
        (i % (ClientState.mk (List.dedup ["a", "b", "a"]) 0).activeKeys.length) "") ∧
    (∀ i, ((List.range (ClientState.mk (List.dedup ["a", "b", "a"]) 0).activeKeys.length).map
        (fun j => rotKey (ClientState.mk (List.dedup ["a", "b", "a"]) 0).activeKeys (i + j))).Perm
      (ClientState.mk (List.dedup ["a", "b", "a"]) 0).activeKeys) :=
  round_robin_key_rotation ["a", "b", "a"] (ClientState.mk (List.dedup ["a", "b", "a"]) 0) rfl

lemma strDataExt {s t : String} (h : s.data = t.data) : s = t := by
  cases s
  cases t
  exact congrArg String.mk h

lemma dictFind_eq_none {d : List (String × PyVal)} {k : String}
    (h : dictContains d k = false) : dictFind d k = Option.none := by
  rw [dictContains, List.any_eq_false] at h
  rw [dictFind, List.find?_eq_none.mpr h]
  rfl

/-- C6 counterexample: with `kwargs = ("append": "videos")` the parameters
that `_Resource._get` passes to `_api_request` are not the unmodified
keyword arguments — the `append` shortcut is popped and merged into
`append_to_response` by conditional logic in `_Resource._get`. -/
theorem resource_kwargs_modified_counterexample :
    (resourceRequest (moviePath 550) "" [("append", PyVal.str "videos")]).2 ≠
      [("append", PyVal.str "videos")] := by
  intro h
  have h2 := congrArg (List.map Prod.fst) h
  have h3 : (["append_to_response"] : List String) = ["append"] := h2
  exact absurd h3 (by decide)

/-- C6 (amended): for every resource class the URL handed to `_api_request`
is the mechanical template `BASE_URL + "/" + "/".join(str(segment) for
segment in constructor segments) + path_suffix`, and the parameters are the
keyword arguments with exactly one normalization applied — the `append`
shortcut merged into `append_to_response` by `_Resource._get` (plus, for
`Find.by` and the `Search` methods, the method's own positional argument
stored under its fixed key); kwargs without an `append` key pass through
unmodified. -/
theorem resource_requests_mechanical (movie_id tv_id season_number episode_number person_id : Int)
    (external_id source query time_window pathSuffix : String)
    (kwargs : List (String × PyVal)) :
    resourceRequest (moviePath movie_id) pathSuffix kwargs =
      (BASE_URL ++ "/" ++ "movie" ++ "/" ++ toString movie_id ++ pathSuffix,
        mergeAppend kwargs) ∧
    resourceRequest (tvPath tv_id) pathSuffix kwargs =
      (BASE_URL ++ "/" ++ "tv" ++ "/" ++ toString tv_id ++ pathSuffix, mergeAppend kwargs) ∧
    resourceRequest (seasonPath tv_id season_number) pathSuffix kwargs =
      (BASE_URL ++ "/" ++ "tv" ++ "/" ++ toString tv_id ++ "/" ++ "season" ++ "/" ++
        toString season_number ++ pathSuffix, mergeAppend kwargs) ∧
    resourceRequest (episodePath tv_id season_number episode_number) pathSuffix kwargs =
      (BASE_URL ++ "/" ++ "tv" ++ "/" ++ toString tv_id ++ "/" ++ "season" ++ "/" ++
        toString season_number ++ "/" ++ "episode" ++ "/" ++ toString episode_number ++
        pathSuffix, mergeAppend kwargs) ∧
    resourceRequest (personPath person_id) pathSuffix kwargs =
      (BASE_URL ++ "/" ++ "person" ++ "/" ++ toString person_id ++ pathSuffix,
        mergeAppend kwargs) ∧
    findByRequest external_id source kwargs =
      (BASE_URL ++ "/" ++ "find" ++ "/" ++ external_id,
        mergeAppend (dictSet kwargs "external_source" (.str source))) ∧
    searchMovieRequest query kwargs =
      (BASE_URL ++ "/" ++ "search" ++ "/movie",
        mergeAppend (dictSet kwargs "query" (.str query))) ∧
    trendingAllRequest time_window =
      (BASE_URL ++ "/" ++ "trending" ++ "/all/" ++ time_window, []) ∧
    (dictContains kwargs "append" = false → mergeAppend kwargs = kwargs) := by
  refine ⟨?_, ?_, ?_, ?_, ?_, ?_, ?_, ?_, ?_⟩
  · show (resourceUrl (moviePath movie_id) pathSuffix, mergeAppend kwargs) = _
    rw [show resourceUrl (moviePath movie_id) pathSuffix =
        BASE_URL ++ "/" ++ "movie" ++ "/" ++ toString movie_id ++ pathSuffix from
      strDataExt (by simp [resourceUrl, moviePath, resourcePath, strJoin, pyStr, pyRepr,
        String.data_append, List.append_assoc])]
  · show (resourceUrl (tvPath tv_id) pathSuffix, mergeAppend kwargs) = _
    rw [show resourceUrl (tvPath tv_id) pathSuffix =
        BASE_URL ++ "/" ++ "tv" ++ "/" ++ toString tv_id ++ pathSuffix from
      strDataExt (by simp [resourceUrl, tvPath, resourcePath, strJoin, pyStr, pyRepr,
        String.data_append, List.append_assoc])]
  · show (resourceUrl (seasonPath tv_id season_number) pathSuffix, mergeAppend kwargs) = _
    rw [show resourceUrl (seasonPath tv_id season_number) pathSuffix =
        BASE_URL ++ "/" ++ "tv" ++ "/" ++ toString tv_id ++ "/" ++ "season" ++ "/" ++
          toString season_number ++ pathSuffix from
      strDataExt (by simp [resourceUrl, seasonPath, resourcePath, strJoin, pyStr, pyRepr,
        String.data_append, List.append_assoc])]
  · show (resourceUrl (episodePath tv_id season_number episode_number) pathSuffix,
        mergeAppend kwargs) = _
    rw [show resourceUrl (episodePath tv_id season_number episode_number) pathSuffix =
        BASE_URL ++ "/" ++ "tv" ++ "/" ++ toString tv_id ++ "/" ++ "season" ++ "/" ++
          toString season_number ++ "/" ++ "episode" ++ "/" ++ toString episode_number ++
          pathSuffix from
      strDataExt (by simp [resourceUrl, episodePath, resourcePath, strJoin, pyStr, pyRepr,
        String.data_append, List.append_assoc])]
  · show (resourceUrl (personPath person_id) pathSuffix, mergeAppend kwargs) = _
    rw [show resourceUrl (personPath person_id) pathSuffix =
        BASE_URL ++ "/" ++ "person" ++ "/" ++ toString person_id ++ pathSuffix from
      strDataExt (by simp [resourceUrl, personPath, resourcePath, strJoin, pyStr, pyRepr,
        String.data_append, List.append_assoc])]
  · show (resourceUrl (findPath external_id) "",
        mergeAppend (dictSet kwargs "external_source" (.str source))) = _
    rw [show resourceUrl (findPath external_id) "" =
        BASE_URL ++ "/" ++ "find" ++ "/" ++ external_id from
      strDataExt (by simp [resourceUrl, findPath, resourcePath, strJoin, pyStr, pyRepr,
        String.data_append, List.append_assoc])]
  · show (resourceUrl searchPath "/movie",
        mergeAppend (dictSet kwargs "query" (.str query))) = _
    rw [show resourceUrl searchPath "/movie" = BASE_URL ++ "/" ++ "search" ++ "/movie" from
      strDataExt (by simp [resourceUrl, searchPath, resourcePath, strJoin, pyStr, pyRepr,
        String.data_append, List.append_assoc])]
  · show (resourceUrl trendingPath ("/all/" ++ time_window), mergeAppend []) = _
    rw [show resourceUrl trendingPath ("/all/" ++ time_window) =
        BASE_URL ++ "/" ++ "trending" ++ "/all/" ++ time_window from
      strDataExt (by simp [resourceUrl, trendingPath, resourcePath, strJoin, pyStr, pyRepr,
        String.data_append, List.append_assoc])]
    rfl
  · intro hcont
    simp [mergeAppend, dictFind_eq_none hcont]

/-- C6 (amended) witness: a concrete movie request and a concrete kwargs
dict without `append` passing through unmodified. -/
theorem resource_requests_mechanical_witness :
    resourceRequest (moviePath 550) "/credits" [("page", PyVal.int 1)] =
      (BASE_URL ++ "/" ++ "movie" ++ "/" ++ toString (550 : Int) ++ "/credits",
        mergeAppend [("page", PyVal.int 1)]) ∧
    mergeAppend [("page", PyVal.int 1)] = [("page", PyVal.int 1)] :=
  ⟨(resource_requests_mechanical 550 0 0 0 0 "" "" "" "" "/credits"
      [("page", PyVal.int 1)]).1,
   (resource_requests_mechanical 550 0 0 0 0 "" "" "" "" "/credits"
      [("page", PyVal.int 1)]).2.2.2.2.2.2.2.2 (by decide)⟩
